import Mathlib

/-!
Shallow embedding of the stock-ledger, tenant-scoping and order subsystems of the
inventory/order-management backend, together with proofs about the properties its
specification claims.

Conventions of the embedding:
* Machine/database integers (Django IntegerField) are modelled as Int; there is no
  overflow at the sizes involved.
* Decimal monetary fields (DecimalField) are modelled as Rat: Python Decimal
  arithmetic at the operations used here (mult, sub, division by 100) is exact.
* Database rows are modelled as Lean structures; a table is a List of rows; the
  per-row primary key UUID is modelled as a Nat whose ordering stands for the
  lexicographic ordering of the random UUID strings (NOT creation order).
* Python exceptions are modelled with Except; a raised exception before any write
  is an .error result carrying no state.
* The thread-local current tenant (tenants/middleware.py, get_current_tenant) is
  modelled as an Option Nat parameter threaded into each operation.
-/

/-- Status values of StockAdjustment (inventory/models.py, STATUS_CHOICES). -/
inductive AdjStatus where
  | pending
  | approved
  | rejected
deriving DecidableEq, BEq, Repr

/-- Error raised when a state transition is not allowed; the source raises a
ValueError, which the specification calls InvalidStateTransition. -/
inductive AdjError where
  | invalidStateTransition
deriving DecidableEq, BEq, Repr

/-- StockItem row (inventory/models.py): materialized balance for one
(tenant, product/variant, warehouse); both counters are plain IntegerFields. -/
structure StockItem where
  quantity : Int
  reserved_quantity : Int
deriving DecidableEq, BEq, Repr

/-- StockItem.available_quantity property (inventory/models.py line 64). -/
def StockItem.available_quantity (s : StockItem) : Int :=
  s.quantity - s.reserved_quantity

/-- StockTransaction row (inventory/models.py): signed delta with type/reason. -/
structure StockTransaction where
  transaction_type : String
  quantity : Int
  reason : String
  user : Option Nat
deriving DecidableEq, BEq, Repr

/-- StockAdjustment row (inventory/models.py lines 199-249). -/
structure StockAdjustment where
  quantity_before : Int
  quantity_after : Int
  adjustment_quantity : Int
  status : AdjStatus
  approved_by : Option Nat
  approved_at : Option Nat
deriving DecidableEq, BEq, Repr

/-- Ledger state for one (tenant, stocked unit, warehouse) pair: the StockItem
row, if created, and the StockTransaction rows for that pair. -/
structure LedgerState where
  stock_item : Option StockItem
  transactions : List StockTransaction
deriving DecidableEq, BEq, Repr

/-- StockAdjustment.save (inventory/models.py line 246): recomputes
adjustment_quantity = quantity_after - quantity_before before writing. -/
def StockAdjustment.save (a : StockAdjustment) : StockAdjustment :=
  { a with adjustment_quantity := a.quantity_after - a.quantity_before }

/-- StockAdjustment.approve (inventory/models.py line 251): only pending may be
approved; then status/metadata are saved, one adjustment StockTransaction with
the recomputed delta is created, and the StockItem (get_or_create with default
quantity 0) is set to quantity_after. The user is `u`, the clock reads `now`. -/
def StockAdjustment.approve (a : StockAdjustment) (u : Nat) (now : Nat)
    (s : LedgerState) : Except AdjError (StockAdjustment × LedgerState) :=
  if a.status ≠ AdjStatus.pending then
    .error AdjError.invalidStateTransition
  else
    let a1 := StockAdjustment.save
      { a with status := AdjStatus.approved, approved_by := some u, approved_at := some now }
    let txn : StockTransaction :=
      { transaction_type := "adjustment", quantity := a1.adjustment_quantity,
        reason := "adjustment", user := some u }
    let item0 := s.stock_item.getD { quantity := 0, reserved_quantity := 0 }
    let item1 := { item0 with quantity := a1.quantity_after }
    .ok (a1, { stock_item := some item1, transactions := s.transactions ++ [txn] })

/-- StockAdjustment.reject (inventory/models.py line 283): only pending may be
rejected; changes only status and approval metadata, no ledger effect. -/
def StockAdjustment.reject (a : StockAdjustment) (u : Nat) (now : Nat) :
    Except AdjError StockAdjustment :=
  if a.status ≠ AdjStatus.pending then
    .error AdjError.invalidStateTransition
  else
    .ok (StockAdjustment.save
      { a with status := AdjStatus.rejected, approved_by := some u, approved_at := some now })

/-- Quantity recorded in the ledger balance; a not-yet-created StockItem row
counts as zero (the get_or_create default). -/
def itemQty (s : LedgerState) : Int :=
  match s.stock_item with
  | some i => i.quantity
  | none => 0

/-- Reserved quantity of the ledger balance; absent row counts as zero. -/
def itemReserved (s : LedgerState) : Int :=
  match s.stock_item with
  | some i => i.reserved_quantity
  | none => 0

/-- Sum of the signed deltas of all StockTransaction rows of the pair. -/
def sumTxns (s : LedgerState) : Int :=
  (s.transactions.map StockTransaction.quantity).sum

/-- State after attempting one approval: the new state on success, the old
state unchanged when the approval raised. -/
def nextState (u : Nat) (now : Nat) (a : StockAdjustment) (s : LedgerState) : LedgerState :=
  match a.approve u now s with
  | .ok (_, s1) => s1
  | .error _ => s

/-- Run a sequence of approval attempts (the only stock-mutating operation in
the source reachable from the adjustment workflow). -/
def approveAll (u : Nat) (now : Nat) : List StockAdjustment → LedgerState → LedgerState
  | [], s => s
  | a :: rest, s => approveAll u now rest (nextState u now a s)

/-- Drift-freedom of a sequence of approvals: every adjustment that is actually
approved (pending at its turn) has quantity_before equal to the balance at that
moment. -/
def driftFree (u : Nat) (now : Nat) : List StockAdjustment → LedgerState → Bool
  | [], _ => true
  | a :: rest, s =>
      (!(a.status == AdjStatus.pending) || (a.quantity_before == itemQty s)) &&
      driftFree u now rest (nextState u now a s)

/-- Key fact used below: a successful approval appends exactly one transaction
whose delta is quantity_after - quantity_before, and the balance becomes
quantity_after while reserved_quantity is untouched. -/
theorem approve_pending_eq (a : StockAdjustment) (u : Nat) (now : Nat) (s : LedgerState)
    (h : a.status = AdjStatus.pending) :
    a.approve u now s = .ok
      ({ a with
          status := AdjStatus.approved, approved_by := some u, approved_at := some now,
          adjustment_quantity := a.quantity_after - a.quantity_before },
       { stock_item := some { quantity := a.quantity_after, reserved_quantity := itemReserved s },
         transactions := s.transactions ++
           [{ transaction_type := "adjustment",
              quantity := a.quantity_after - a.quantity_before,
              reason := "adjustment", user := some u }] }) := by
  simp only [StockAdjustment.approve, h, ne_eq, not_true_eq_false, if_false,
    StockAdjustment.save, ite_false]
  cases hs : s.stock_item <;>
    simp [itemReserved, hs, Option.getD]

/-- C4: approving a pending StockAdjustment writes exactly one StockTransaction
whose delta equals quantity_after - quantity_before with reason adjustment, and
sets the StockItem quantity to quantity_after (creating the row at 0 first if
missing), leaving reserved_quantity alone; the whole effect is the one result
state of the single operation. -/
theorem C4_approve_effects (a : StockAdjustment) (u : Nat) (now : Nat) (s : LedgerState)
    (h : a.status = AdjStatus.pending) :
    a.approve u now s = .ok
      ({ a with
          status := AdjStatus.approved, approved_by := some u, approved_at := some now,
          adjustment_quantity := a.quantity_after - a.quantity_before },
       { stock_item := some { quantity := a.quantity_after, reserved_quantity := itemReserved s },
         transactions := s.transactions ++
           [{ transaction_type := "adjustment",
              quantity := a.quantity_after - a.quantity_before,
              reason := "adjustment", user := some u }] }) :=
  approve_pending_eq a u now s h

/-- C4 witness: StockAdjustment(before=50, after=65) approved over a balance of
50 yields one StockTransaction(delta=+15, reason=adjustment) and quantity 65. -/
theorem C4_approve_effects_witness :
    StockAdjustment.approve ⟨50, 65, 0, AdjStatus.pending, none, none⟩ 9 100
      ⟨some ⟨50, 0⟩, []⟩ =
    .ok (⟨50, 65, 15, AdjStatus.approved, some 9, some 100⟩,
         ⟨some ⟨65, 0⟩, [⟨"adjustment", 15, "adjustment", some 9⟩]⟩) := by
  have h := C4_approve_effects ⟨50, 65, 0, AdjStatus.pending, none, none⟩ 9 100
    ⟨some ⟨50, 0⟩, []⟩ rfl
  exact h

/-- C5: approve and reject on a non-pending adjustment both raise the
invalid-state-transition error before any write; no state is produced. -/
theorem C5_nonpending_raises (a : StockAdjustment) (u : Nat) (now : Nat) (s : LedgerState)
    (h : a.status ≠ AdjStatus.pending) :
    a.approve u now s = .error AdjError.invalidStateTransition ∧
    a.reject u now = .error AdjError.invalidStateTransition := by
  constructor <;> simp [StockAdjustment.approve, StockAdjustment.reject, h]

/-- C5 witness: an already-approved adjustment can be neither approved nor
rejected again. -/
theorem C5_nonpending_raises_witness :
    StockAdjustment.approve ⟨50, 65, 15, AdjStatus.approved, some 9, some 100⟩ 9 101
      ⟨some ⟨65, 0⟩, []⟩ = .error AdjError.invalidStateTransition ∧
    StockAdjustment.reject ⟨50, 65, 15, AdjStatus.approved, some 9, some 100⟩ 9 101 =
      .error AdjError.invalidStateTransition :=
  C5_nonpending_raises ⟨50, 65, 15, AdjStatus.approved, some 9, some 100⟩ 9 101
    ⟨some ⟨65, 0⟩, []⟩ (by decide)

/-- Frame fact: an approval never changes reserved_quantity (and a failed one
changes nothing at all). -/
theorem itemReserved_nextState (u : Nat) (now : Nat) (a : StockAdjustment) (s : LedgerState) :
    itemReserved (nextState u now a s) = itemReserved s := by
  by_cases hp : a.status = AdjStatus.pending
  · simp [nextState, approve_pending_eq a u now s hp, itemReserved]
  · simp [nextState, StockAdjustment.approve, hp]

/-- C1 is false on the code: approving a single adjustment whose quantity_before
(50) differs from the actual balance (no StockItem row, i.e. 0) leaves the sum
of transaction deltas at 15 while the StockItem quantity is 65. -/
theorem C1_counterexample :
    sumTxns (approveAll 9 100 [⟨50, 65, 0, AdjStatus.pending, none, none⟩] ⟨none, []⟩) = 15 ∧
    itemQty (approveAll 9 100 [⟨50, 65, 0, AdjStatus.pending, none, none⟩] ⟨none, []⟩) = 65 ∧
    sumTxns (approveAll 9 100 [⟨50, 65, 0, AdjStatus.pending, none, none⟩] ⟨none, []⟩) ≠
      itemQty (approveAll 9 100 [⟨50, 65, 0, AdjStatus.pending, none, none⟩] ⟨none, []⟩) := by
  refine ⟨rfl, rfl, ?_⟩
  decide

/-- C1 (amended): the reconciliation invariant holds for every sequence of
approvals provided each adjustment actually approved has quantity_before equal
to the balance at the moment of its approval (drift-free sequences); starting
from any state already satisfying the invariant, the sum of transaction deltas
equals the StockItem quantity afterwards. -/
theorem C1_reconciliation_driftFree (u : Nat) (now : Nat) (adjs : List StockAdjustment)
    (s : LedgerState) (h0 : sumTxns s = itemQty s) (hd : driftFree u now adjs s = true) :
    sumTxns (approveAll u now adjs s) = itemQty (approveAll u now adjs s) := by
  induction adjs generalizing s with
  | nil => simpa [approveAll] using h0
  | cons a rest ih =>
    rw [driftFree, Bool.and_eq_true] at hd
    obtain ⟨h1, h2⟩ := hd
    rw [approveAll]
    refine ih (nextState u now a s) ?_ h2
    by_cases hp : a.status = AdjStatus.pending
    · have hbeq : (a.status == AdjStatus.pending) = true := by rw [hp]; decide
      rw [hbeq] at h1
      simp only [Bool.not_true, Bool.false_or] at h1
      have hb : a.quantity_before = itemQty s := by simpa using h1
      have hnext := approve_pending_eq a u now s hp
      simp only [nextState, hnext]
      simp only [sumTxns, itemQty, List.map_append, List.map_cons, List.map_nil,
        List.sum_append, List.sum_cons, List.sum_nil]
      rw [sumTxns] at h0
      omega
    · have hsame : nextState u now a s = s := by
        simp [nextState, StockAdjustment.approve, hp]
      rw [hsame]
      exact h0

/-- C1 witness: two drift-free adjustments (0 to 5, then 5 to 3) approved from
the empty ledger keep the transaction sum equal to the balance. -/
theorem C1_reconciliation_driftFree_witness :
    sumTxns (approveAll 9 100 [⟨0, 5, 0, AdjStatus.pending, none, none⟩,
        ⟨5, 3, 0, AdjStatus.pending, none, none⟩] ⟨none, []⟩) =
    itemQty (approveAll 9 100 [⟨0, 5, 0, AdjStatus.pending, none, none⟩,
        ⟨5, 3, 0, AdjStatus.pending, none, none⟩] ⟨none, []⟩) :=
  C1_reconciliation_driftFree 9 100
    [⟨0, 5, 0, AdjStatus.pending, none, none⟩, ⟨5, 3, 0, AdjStatus.pending, none, none⟩]
    ⟨none, []⟩ rfl (by decide)

/-- C6 is false on the code: the available quantity can go negative in a
reachable state — approving an adjustment with quantity_after = -1 over the
empty ledger creates a StockItem whose available_quantity is -1. -/
theorem C6_counterexample :
    ((approveAll 9 100 [⟨0, -1, 0, AdjStatus.pending, none, none⟩]
        ⟨none, []⟩).stock_item.getD ⟨0, 0⟩).available_quantity = -1 ∧
    ((approveAll 9 100 [⟨0, -1, 0, AdjStatus.pending, none, none⟩]
        ⟨none, []⟩).stock_item.getD ⟨0, 0⟩).available_quantity < 0 := by
  refine ⟨rfl, ?_⟩
  decide

/-- C6 (amended): available_quantity is by definition quantity minus
reserved_quantity, and the adjustment pipeline never touches reserved_quantity;
but no non-negativity of the difference is enforced anywhere. -/
theorem C6_available_eq_sub :
    (∀ it : StockItem, it.available_quantity = it.quantity - it.reserved_quantity) ∧
    (∀ (u now : Nat) (adjs : List StockAdjustment) (s : LedgerState),
      itemReserved (approveAll u now adjs s) = itemReserved s) := by
  refine ⟨fun it => rfl, ?_⟩
  intro u now adjs
  induction adjs with
  | nil => intro s; rfl
  | cons a rest ih =>
    intro s
    rw [approveAll, ih, itemReserved_nextState]

/-- Row of a tenant-owned table as seen by the scoped manager; only the tenant
stamp and an opaque payload matter here (tenants/managers.py). -/
structure TRow where
  tenant : Nat
  payload : Nat
deriving DecidableEq, BEq, Repr

/-- TenantAwareManager.get_queryset (tenants/managers.py line 10): filters by
the thread-local current tenant when one is set, and otherwise returns the
whole, unfiltered queryset. -/
def get_queryset (ctx : Option Nat) (rows : List TRow) : List TRow :=
  match ctx with
  | some t => rows.filter (fun r => r.tenant == t)
  | none => rows

/-- TenantAwareModel.save (tenants/managers.py line 42): stamps the current
tenant only when the instance has none; the result is the tenant stored on the
saved row. -/
def tenantAwareSave (ctx : Option Nat) (tenant_id : Option Nat) : Option Nat :=
  match tenant_id with
  | some t => some t
  | none => ctx

/-- TenantAwareManager.create (tenants/managers.py line 17): adds the current
tenant to the kwargs only when the caller supplied none, then saves. The result
is the tenant stored on the created row. -/
def managerCreate (ctx : Option Nat) (supplied : Option Nat) : Option Nat :=
  tenantAwareSave ctx
    (match supplied with
     | some t => some t
     | none => ctx)

/-- C2 is false on the code: with no active tenant context, get_queryset does
not raise; it returns the unscoped data unchanged. -/
theorem C2_counterexample :
    get_queryset none [⟨3, 1⟩] = [⟨3, 1⟩] ∧ ([⟨3, 1⟩] : List TRow) ≠ [] := by
  exact ⟨rfl, by decide⟩

/-- C2 (amended): when an active tenant is set every returned row carries that
tenant, but when none is set the read is fail-open — the whole table is
returned unscoped instead of a PermissionError being raised. -/
theorem C2_scoping (t : Nat) (rows : List TRow) :
    ((get_queryset (some t) rows).all (fun r => r.tenant == t) = true) ∧
    get_queryset none rows = rows := by
  constructor
  · rw [List.all_eq_true]
    intro r hr
    rw [get_queryset] at hr
    exact (List.mem_filter.mp hr).2
  · rfl

/-- C9: a caller-supplied tenant wins over the active context in both the
manager's create and the model's save, even when the two differ; the context is
stamped only when no tenant was supplied. -/
theorem C9_supplied_tenant_preserved :
    (∀ a t : Nat, managerCreate (some a) (some t) = some t) ∧
    (∀ a t : Nat, tenantAwareSave (some a) (some t) = some t) ∧
    (∀ a : Nat, managerCreate (some a) none = some a) ∧
    (∀ a : Nat, tenantAwareSave (some a) none = some a) :=
  ⟨fun _ _ => rfl, fun _ _ => rfl, fun _ => rfl, fun _ => rfl⟩

/-- Warehouse row (inventory/models.py lines 7-34); only the fields the default
flag logic touches are modelled. -/
structure Warehouse where
  id : Nat
  tenant : Nat
  is_default : Bool
deriving DecidableEq, BEq, Repr

/-- Condition under which a row is visible to the tenant-scoped manager
(TenantAwareManager.get_queryset) for a given thread-local context. -/
def ctxMatches (ctx : Option Nat) (x : Warehouse) : Bool :=
  match ctx with
  | some t => x.tenant == t
  | none => true

/-- Effect of Warehouse.objects.filter(tenant=self.tenant, is_default=True)
.update(is_default=False): the filter runs on the manager's tenant-scoped
queryset, so only rows visible under the active context are cleared. -/
def clearDefaults (ctx : Option Nat) (t : Nat) (rows : List Warehouse) : List Warehouse :=
  rows.map fun x =>
    if ctxMatches ctx x && x.tenant == t && x.is_default then
      { x with is_default := false }
    else x

/-- Database write of one row: replace the row with the same primary key, or
append the row when it is new. -/
def upsert (w : Warehouse) (rows : List Warehouse) : List Warehouse :=
  if rows.any (fun x => x.id == w.id) then
    rows.map fun x => if x.id == w.id then w else x
  else rows ++ [w]

/-- Warehouse.save (inventory/models.py line 30): when saving a default
warehouse, first clear the default flag of the rows the scoped manager shows
for this tenant, then write the row. -/
def Warehouse.save (ctx : Option Nat) (w : Warehouse) (rows : List Warehouse) :
    List Warehouse :=
  upsert w (if w.is_default then clearDefaults ctx w.tenant rows else rows)

/-- Membership after a database write: every row of the result is the written
row or one of the (possibly cleared) prior rows. -/
theorem mem_upsert (w y : Warehouse) (rows : List Warehouse)
    (hy : y ∈ upsert w rows) : y = w ∨ y ∈ rows := by
  rw [upsert] at hy
  by_cases hany : rows.any (fun x => x.id == w.id)
  · rw [if_pos hany] at hy
    obtain ⟨x, hx, hfx⟩ := List.mem_map.mp hy
    by_cases hid : x.id == w.id
    · left
      rw [if_pos hid] at hfx
      exact hfx.symm
    · right
      rw [if_neg hid] at hfx
      exact hfx ▸ hx
  · rw [if_neg hany] at hy
    rcases List.mem_append.mp hy with h | h
    · exact Or.inr h
    · exact Or.inl (List.mem_singleton.mp h)

/-- Under a context that matches the saved warehouse's tenant (or no context at
all), the clearing update removes the default flag from every row of that
tenant. -/
theorem clearDefaults_clears (ctx : Option Nat) (t : Nat) (rows : List Warehouse)
    (hctx : ctx = none ∨ ctx = some t) (y : Warehouse)
    (hy : y ∈ clearDefaults ctx t rows) (hyt : y.tenant = t) : y.is_default = false := by
  rw [clearDefaults] at hy
  obtain ⟨x, _, hfx⟩ := List.mem_map.mp hy
  by_cases hcond : (ctxMatches ctx x && x.tenant == t && x.is_default) = true
  · rw [if_pos hcond] at hfx
    rw [← hfx]
  · rw [if_neg hcond] at hfx
    subst hfx
    by_contra hdef
    have hxdef : x.is_default = true := by
      cases hbd : x.is_default
      · exact absurd hbd hdef
      · rfl
    have hm : ctxMatches ctx x = true := by
      rcases hctx with h | h <;> subst h
      · rfl
      · simp [ctxMatches, hyt]
    exact hcond (by simp [hm, hyt, hxdef])

/-- C8 is false on the code: the clearing update runs through the tenant-scoped
manager, so saving a default warehouse of tenant 2 while the active context is
tenant 1 leaves the old default of tenant 2 set — tenant 2 ends with two
default warehouses. -/
theorem C8_counterexample :
    ((Warehouse.save (some 1) ⟨11, 2, true⟩ [⟨10, 2, true⟩]).filter
      (fun x => x.tenant == 2 && x.is_default)).length = 2 := by
  decide

/-- C8 (amended): when the active tenant context is unset or equals the saved
warehouse's tenant, saving a warehouse flagged default leaves it the only
default of its tenant: every default row of that tenant in the result is the
saved row. -/
theorem C8_single_default (ctx : Option Nat) (w : Warehouse) (rows : List Warehouse)
    (hctx : ctx = none ∨ ctx = some w.tenant) (hdef : w.is_default = true) :
    ((Warehouse.save ctx w rows).filter
      (fun x => x.tenant == w.tenant && x.is_default)).all (fun x => x.id == w.id) = true := by
  rw [List.all_eq_true]
  intro y hy
  have hy' := List.mem_filter.mp hy
  obtain ⟨hmem, hfilt⟩ := hy'
  have htenant : y.tenant = w.tenant := by
    have := (Bool.and_eq_true _ _).mp hfilt
    exact beq_iff_eq.mp this.1
  have hydef : y.is_default = true := ((Bool.and_eq_true _ _).mp hfilt).2
  rw [Warehouse.save, if_pos hdef] at hmem
  rcases mem_upsert w y _ hmem with h | h
  · rw [h]
    exact beq_self_eq_true w.id
  · exact absurd (clearDefaults_clears ctx w.tenant rows hctx y h htenant)
      (by rw [hydef]; decide)

/-- C8 witness: with no active context, saving a new default warehouse of
tenant 7 over a table holding another default of tenant 7 leaves the saved row
as the only default of tenant 7. -/
theorem C8_single_default_witness :
    ((Warehouse.save none ⟨2, 7, true⟩ [⟨1, 7, true⟩]).filter
      (fun x => x.tenant == 7 && x.is_default)).all (fun x => x.id == 2) = true :=
  C8_single_default none ⟨2, 7, true⟩ [⟨1, 7, true⟩] (Or.inl rfl) rfl

/-- Order row as relevant to number generation (orders/models.py): the primary
key is a random UUID (modelled by the Nat id, whose ordering is the UUID
ordering, unrelated to creation order), the tenant, the type string, and the
already-stored order_number. The list order of a table is creation order. -/
structure OrderRec where
  id : Nat
  tenant : Nat
  order_type : String
  order_number : String
deriving DecidableEq, BEq, Repr

/-- Per-type order number marker (orders/models.py lines 127-132): the dict
lookup with fallback OR. -/
def orderPfx (order_type : String) : String :=
  if order_type = "sale" then "SO"
  else if order_type = "purchase" then "PO"
  else if order_type = "return" then "RO"
  else if order_type = "transfer" then "TO"
  else "OR"

/-- Python str.split on a single dash, on the character list of the string. -/
def splitDash : List Char → List (List Char)
  | [] => [[]]
  | c :: rest =>
    let r := splitDash rest
    if c = '-' then [] :: r
    else
      match r with
      | [] => [[c]]
      | seg :: segs => (c :: seg) :: segs

/-- Last dash-separated segment of a string: order_number.split('-')[-1]. -/
def lastSegment (s : String) : List Char :=
  (splitDash s.toList).getLastD []

/-- Starts of the decades of the Unicode Nd (decimal digit) category, as in the
Unicode database CPython 3.11 ships: every entry d opens a run d..d+9 of digit
characters carrying the values 0..9, and these runs cover Nd exactly. Python
int() accepts every such digit, not only ASCII. -/
def ndDecadeStarts : List Nat :=
  [48, 1632, 1776, 1984, 2406, 2534, 2662, 2790, 2918, 3046,
   3174, 3302, 3430, 3558, 3664, 3792, 3872, 4160, 4240, 6112,
   6160, 6470, 6608, 6784, 6800, 6992, 7088, 7232, 7248, 42528,
   43216, 43264, 43472, 43504, 43600, 44016, 65296, 66720, 68912, 69734,
   69872, 69942, 70096, 70384, 70736, 70864, 71248, 71360, 71472, 71904,
   72016, 72784, 73040, 73120, 92768, 92864, 93008, 120782, 120792, 120802,
   120812, 120822, 123200, 123632, 125264, 130032]

/-- Code points Python's int() strips as surrounding whitespace (the
Py_UNICODE_ISSPACE set, equal to str.isspace on single characters). -/
def pySpaceCodes : List Nat :=
  [9, 10, 11, 12, 13, 28, 29, 30, 31, 32, 133, 160, 5760,
   8192, 8193, 8194, 8195, 8196, 8197, 8198, 8199, 8200, 8201, 8202,
   8232, 8233, 8239, 8287, 12288]

/-- Whether int() strips this character at either end of its argument. -/
def isPySpace (c : Char) : Bool :=
  pySpaceCodes.contains c.toNat

/-- Decimal value of a character when it is a Unicode decimal digit. -/
def pyDigitVal (c : Char) : Option Nat :=
  ndDecadeStarts.findSome? fun d =>
    if d ≤ c.toNat && c.toNat ≤ d + 9 then some (c.toNat - d) else none

/-- Surrounding-whitespace strip performed by int() on its argument. -/
def pyStrip (cs : List Char) : List Char :=
  ((cs.dropWhile isPySpace).reverse.dropWhile isPySpace).reverse

/-- Remainder of a digit group: Python permits a single underscore between two
digits (never leading, trailing or doubled), any Unicode decimal digits. -/
def parseDigitsRest (acc : Nat) : List Char → Option Nat
  | [] => some acc
  | '_' :: c :: rest =>
    match pyDigitVal c with
    | some d => parseDigitsRest (acc * 10 + d) rest
    | none => none
  | c :: rest =>
    match pyDigitVal c with
    | some d => parseDigitsRest (acc * 10 + d) rest
    | none => none

/-- Digit group of an int() literal: at least one digit, underscores between
digits only. -/
def parseDigitsU : List Char → Option Nat
  | [] => none
  | c :: rest =>
    match pyDigitVal c with
    | some d => parseDigitsRest d rest
    | none => none

/-- Python int(s) on a dash-free string: surrounding whitespace is stripped, an
optional plus sign is consumed, then a nonempty group of Unicode decimal digits
with optional single underscores between digits; anything else raises the
ValueError the source catches. A minus sign cannot reach this function: its
argument is a segment of a split on the dash (splitDash_no_dash below), so the
negative branch of int() is unreachable and left out. -/
def parsePyInt (cs : List Char) : Option Nat :=
  match pyStrip cs with
  | '+' :: rest => parseDigitsU rest
  | rest => parseDigitsU rest

/-- Segments produced by splitting on the dash never contain a dash; in
particular a minus sign cannot occur in the suffix handed to int(). -/
theorem splitDash_no_dash (cs : List Char) : ∀ seg ∈ splitDash cs, '-' ∉ seg := by
  induction cs with
  | nil =>
    intro seg hseg
    rw [splitDash] at hseg
    rw [List.mem_singleton] at hseg
    subst hseg
    exact List.not_mem_nil _
  | cons c rest ih =>
    intro seg hseg
    rw [splitDash] at hseg
    by_cases hc : c = '-'
    · rw [if_pos hc] at hseg
      rcases List.mem_cons.mp hseg with h | h
      · subst h
        exact List.not_mem_nil _
      · exact ih seg h
    · rw [if_neg hc] at hseg
      cases hr : splitDash rest with
      | nil =>
        rw [hr] at hseg
        rw [List.mem_singleton] at hseg
        subst hseg
        intro hmem
        rw [List.mem_singleton] at hmem
        exact hc hmem.symm
      | cons s ss =>
        rw [hr] at hseg
        rcases List.mem_cons.mp hseg with h | h
        · subst h
          intro hmem
          rcases List.mem_cons.mp hmem with h1 | h1
          · exact hc h1.symm
          · exact ih s (by rw [hr]; exact List.mem_cons_self s ss) h1
        · exact ih seg (by rw [hr]; exact List.mem_cons.mpr (Or.inr h))

/-- Zero-padding of the counter as done by the format f-string 06d. -/
def pad6 (n : Nat) : String :=
  let s := toString n
  if s.length < 6 then String.mk (List.replicate (6 - s.length) '0') ++ s else s

/-- The queryset Order.objects.filter(tenant, order_type).order_by(desc id)
.first(): the row with the greatest primary key among the tenant's rows of this
type — NOT the most recently created row, since ids are random UUIDs. -/
def lastByIdDesc (orders : List OrderRec) : Option OrderRec :=
  orders.foldl
    (fun acc o =>
      match acc with
      | none => some o
      | some b => if o.id > b.id then some o else some b)
    none

/-- Order.generate_order_number (orders/models.py lines 125-149). -/
def generate_order_number (orders : List OrderRec) (tenant : Nat) (order_type : String) :
    String :=
  let pfx := orderPfx order_type
  let last_order := lastByIdDesc
    (orders.filter fun o => o.tenant == tenant && o.order_type == order_type)
  let next_number : Nat :=
    match last_order with
    | none => 1
    | some o =>
      if o.order_number = "" then 1
      else
        match parsePyInt (lastSegment o.order_number) with
        | some n => n + 1
        | none => 1
  pfx ++ "-" ++ pad6 next_number

/-- C3 fails on the code: order numbers are read back through an ordering on
the random UUID primary key, not on allocation order. With tenant 1 holding
sale orders SO-000001 (created first, greater UUID) and SO-000002 (created
second, smaller UUID), the next generated number is SO-000002 — a duplicate of
an existing number, which the order_number unique constraint then rejects. -/
theorem C3_duplicate_number :
    generate_order_number [⟨2, 1, "sale", "SO-000001"⟩, ⟨1, 1, "sale", "SO-000002"⟩]
      1 "sale" = "SO-000002" ∧
    "SO-000002" ∈ ([⟨2, 1, "sale", "SO-000001"⟩,
      ⟨1, 1, "sale", "SO-000002"⟩] : List OrderRec).map OrderRec.order_number := by
  exact ⟨by decide, by decide⟩

/-- C10: when the tenant has no previous order of this type, or when the row
fetched as previous has an empty or non-numeric number suffix, generation falls
back to sequence number 1 — the pad6 1 suffix 000001 — rather than failing,
even when other rows with numeric suffixes exist. -/
theorem C10_fallback_to_one (orders : List OrderRec) (tenant : Nat) (order_type : String)
    (h : ∀ o, lastByIdDesc
        (orders.filter fun x => x.tenant == tenant && x.order_type == order_type) = some o →
      o.order_number = "" ∨ parsePyInt (lastSegment o.order_number) = none) :
    generate_order_number orders tenant order_type = orderPfx order_type ++ "-" ++ pad6 1 := by
  simp only [generate_order_number]
  cases hl : lastByIdDesc
      (orders.filter fun x => x.tenant == tenant && x.order_type == order_type) with
  | none => rfl
  | some o =>
    rcases h o hl with hemp | hpar
    · simp [hemp]
    · by_cases he : o.order_number = ""
      · simp [he]
      · simp [he, hpar]

/-- C10 witness: the row with the greatest UUID has the unparseable number
DRAFT while another row holds the numeric SO-000042; generation still returns
SO-000001. -/
theorem C10_fallback_to_one_witness :
    generate_order_number [⟨5, 1, "sale", "DRAFT"⟩, ⟨2, 1, "sale", "SO-000042"⟩]
      1 "sale" = "SO-000001" := by
  have h := C10_fallback_to_one [⟨5, 1, "sale", "DRAFT"⟩, ⟨2, 1, "sale", "SO-000042"⟩]
    1 "sale" ?_
  · exact h.trans (by decide)
  · intro o ho
    have he : lastByIdDesc (([⟨5, 1, "sale", "DRAFT"⟩,
        ⟨2, 1, "sale", "SO-000042"⟩] : List OrderRec).filter
          (fun x => x.tenant == 1 && x.order_type == "sale")) =
        some ⟨5, 1, "sale", "DRAFT"⟩ := by decide
    rw [he] at ho
    injection ho with h2
    subst h2
    exact Or.inr (by decide)

/-- OrderLine row (orders/models.py lines 168-197): pricing fields are Decimal
columns, modelled as Rat; quantity is an IntegerField. -/
structure OrderLine where
  quantity : Int
  unit_price : Rat
  discount_percentage : Rat
  discount_amount : Rat
  line_total : Rat
deriving DecidableEq, Repr

/-- OrderLine.save (orders/models.py line 207): recomputes discount_amount from
the percentage when one is set, and the line total, before writing; the parent
order row is NOT touched. -/
def OrderLine.save (l : OrderLine) : OrderLine :=
  let sub := (l.quantity : Rat) * l.unit_price
  let damt := if 0 < l.discount_percentage then sub * (l.discount_percentage / 100)
    else l.discount_amount
  { l with discount_amount := damt, line_total := sub - damt }

/-- Monetary fields of the Order row (orders/models.py lines 58-62). -/
structure OrderTotals where
  subtotal : Rat
  tax_amount : Rat
  discount_amount : Rat
  shipping_amount : Rat
  total_amount : Rat
deriving DecidableEq, Repr

/-- Order.calculate_totals (orders/models.py line 151), run inside Order.save
(line 121) over the lines currently in the database for this order. -/
def Order.calculate_totals (o : OrderTotals) (lines : List OrderLine) : OrderTotals :=
  let sub := (lines.map OrderLine.line_total).sum
  { o with
      subtotal := sub,
      total_amount := sub + o.tax_amount + o.shipping_amount - o.discount_amount }

/-- C7 is false on the code in its every-line-change part: OrderLine.save does
not recompute the parent order's totals. After the scenario's first step the
order row computed its totals over one line (subtotal 50); creating the second
line (qty 2, price 20, line_total 40) writes only the line, and the stored
subtotal 50 now differs from the sum 90 of the line totals. -/
theorem C7_counterexample :
    (Order.calculate_totals ⟨0, 0, 0, 0, 0⟩ [OrderLine.save ⟨5, 10, 0, 0, 0⟩]).subtotal = 50 ∧
    (OrderLine.save ⟨2, 20, 0, 0, 0⟩).line_total = 40 ∧
    (Order.calculate_totals ⟨0, 0, 0, 0, 0⟩ [OrderLine.save ⟨5, 10, 0, 0, 0⟩]).subtotal ≠
      ([OrderLine.save ⟨5, 10, 0, 0, 0⟩,
        OrderLine.save ⟨2, 20, 0, 0, 0⟩].map OrderLine.line_total).sum := by
  refine ⟨?_, ?_, ?_⟩ <;>
    norm_num [OrderLine.save, Order.calculate_totals]

/-- C7 (amended): every saved line's total is quantity times unit price minus
its discount, and every run of Order.calculate_totals (invoked on each
Order.save, not on each line change) sets the subtotal to the sum of the line
totals; the scenario's figures 50 and 90 are obtained once the order is saved
again after each line change. -/
theorem C7_totals_from_lines :
    (∀ l : OrderLine, (OrderLine.save l).line_total =
      (l.quantity : Rat) * l.unit_price - (OrderLine.save l).discount_amount) ∧
    (∀ (o : OrderTotals) (lines : List OrderLine),
      (Order.calculate_totals o lines).subtotal = (lines.map OrderLine.line_total).sum) ∧
    (Order.calculate_totals ⟨0, 0, 0, 0, 0⟩ [OrderLine.save ⟨5, 10, 0, 0, 0⟩]).subtotal = 50 ∧
    (Order.calculate_totals ⟨0, 0, 0, 0, 0⟩ [OrderLine.save ⟨5, 10, 0, 0, 0⟩,
      OrderLine.save ⟨2, 20, 0, 0, 0⟩]).subtotal = 90 := by
  refine ⟨fun l => rfl, fun o lines => rfl, ?_, ?_⟩ <;>
    norm_num [OrderLine.save, Order.calculate_totals]
